import Mathlib

/-!
Verification of the BudgetAdvisor extraction-and-reconciliation pipeline
(`langchain_pipeline.py`).

The Python module is shallowly embedded:

* JSON values (`Json`) are the values `json.loads` can produce, with numbers
  modelled as integers (the inputs of interest carry integer amounts;
  fractional/exponent numeric literals are outside the model).
* `json_loadsL` is a fuel-based recursive-descent model of `json.loads` on
  that subset: it accepts objects, arrays, strings without escape sequences,
  integers (with JSON's leading-zero rule), `true`, `false`, `null`, and the
  four JSON whitespace characters, and it requires the whole input to be
  consumed.  Python `dict` semantics (duplicate keys: last value wins, first
  position kept) are mirrored by `insertKV`.
* `reFind` models `re.search(r"(\{.*\}|\[.*\])", text, re.DOTALL)`: the match
  starts at the first `{` (resp. `[`) that has a later `}` (resp. `]`) and,
  because `.*` is greedy, ends at the last such closer.
* Fallible Python expressions (`"error" in x`, the income summation,
  `calculate_savings`) become `Except String` computations whose error string
  names the Python exception that escapes (`TypeError`, `KeyError`,
  `AttributeError`).
* The four LLM branches are abstracted as a `CompletionClient`: one function
  per branch from the user input to the branch's raw completion text.
-/

/-- JSON values, as produced by `json.loads` (numbers restricted to
integers). -/
inductive Json where
  | null : Json
  | bool : Bool → Json
  | num : Int → Json
  | str : String → Json
  | arr : List Json → Json
  | obj : List (String × Json) → Json

/-- The four JSON whitespace characters (the only ones `json.loads`
skips). -/
def isJsonWs (c : Char) : Bool :=
  c = ' ' || c = '\t' || c = '\n' || c = '\r'

/-- Drop leading JSON whitespace. -/
def skipWs : List Char → List Char
  | [] => []
  | c :: cs => if isJsonWs c then skipWs cs else c :: cs

/-- Python-dict insertion: overwrite the value of an existing key in place,
otherwise append the binding at the end. -/
def insertKV : List (String × Json) → String → Json → List (String × Json)
  | [], k, v => [(k, v)]
  | (k', v') :: rest, k, v =>
    if k' = k then (k', v) :: rest else (k', v') :: insertKV rest k v

/-- First (hence, with `insertKV`, only) binding of a key in an object. -/
def lookupKV : List (String × Json) → String → Option Json
  | [], _ => none
  | (k, v) :: rest, key => if k = key then some v else lookupKV rest key

/-- Accumulate the digits of a decimal literal. -/
def takeDigits : List Char → Nat → Nat × List Char
  | [], acc => (acc, [])
  | c :: cs, acc =>
    if c.isDigit then takeDigits cs (acc * 10 + (c.toNat - 48)) else (acc, c :: cs)

/-- Parse a JSON natural-number literal (no leading zeros, per RFC 8259 and
`json.loads`). -/
def parseNat : List Char → Option (Nat × List Char)
  | [] => none
  | '0' :: c :: cs => if c.isDigit then none else some (0, c :: cs)
  | ['0'] => some (0, [])
  | c :: cs => if c.isDigit then some (takeDigits cs (c.toNat - 48)) else none

/-- Parse a JSON integer literal, sign included. -/
def parseIntLit : List Char → Option (Json × List Char)
  | '-' :: cs => (parseNat cs).map (fun p => (Json.num (-(p.1 : Int)), p.2))
  | cs => (parseNat cs).map (fun p => (Json.num (p.1 : Int), p.2))

/-- Parse the remainder of a JSON string literal (opening quote already
consumed).  Escape sequences are outside the model. -/
def parseStrRest : List Char → List Char → Option (String × List Char)
  | [], _ => none
  | c :: cs, acc =>
    if c = '"' then some (String.mk acc.reverse, cs)
    else if c = '\\' then none
    else parseStrRest cs (c :: acc)

mutual

/-- Fuel-based model of `json.loads`'s value parser: returns the parsed value
and the unconsumed remainder. -/
def parseVal : Nat → List Char → Option (Json × List Char)
  | 0, _ => none
  | fuel + 1, cs =>
    match skipWs cs with
    | 'n' :: 'u' :: 'l' :: 'l' :: rest => some (Json.null, rest)
    | 't' :: 'r' :: 'u' :: 'e' :: rest => some (Json.bool true, rest)
    | 'f' :: 'a' :: 'l' :: 's' :: 'e' :: rest => some (Json.bool false, rest)
    | '"' :: rest =>
      (parseStrRest rest []).map (fun p => (Json.str p.1, p.2))
    | '[' :: rest =>
      (match skipWs rest with
       | ']' :: rest2 => some (Json.arr [], rest2)
       | _ => parseItems fuel rest [])
    | '{' :: rest =>
      (match skipWs rest with
       | '}' :: rest2 => some (Json.obj [], rest2)
       | _ => parseMembers fuel rest [])
    | cs' => parseIntLit cs'

/-- Parse the (nonempty) item list of a JSON array, the opening `[` already
consumed. -/
def parseItems : Nat → List Char → List Json → Option (Json × List Char)
  | 0, _, _ => none
  | fuel + 1, cs, acc =>
    match parseVal fuel cs with
    | none => none
    | some (v, rest) =>
      match skipWs rest with
      | ',' :: rest2 => parseItems fuel rest2 (acc ++ [v])
      | ']' :: rest2 => some (Json.arr (acc ++ [v]), rest2)
      | _ => none

/-- Parse the (nonempty) member list of a JSON object, the opening `{`
already consumed. -/
def parseMembers : Nat → List Char → List (String × Json) → Option (Json × List Char)
  | 0, _, _ => none
  | fuel + 1, cs, acc =>
    match skipWs cs with
    | '"' :: rest =>
      (match parseStrRest rest [] with
       | none => none
       | some (k, rest2) =>
         match skipWs rest2 with
         | ':' :: rest3 =>
           (match parseVal fuel rest3 with
            | none => none
            | some (v, rest4) =>
              let acc2 := insertKV acc k v
              match skipWs rest4 with
              | ',' :: rest5 => parseMembers fuel rest5 acc2
              | '}' :: rest5 => some (Json.obj acc2, rest5)
              | _ => none)
         | _ => none)
    | _ => none

end

/-- Model of `json.loads` on a character list: parse one value and require
only whitespace to remain. -/
def json_loadsL (cs : List Char) : Option Json :=
  match parseVal (2 * cs.length + 2) cs with
  | some (v, rest) => if skipWs rest = [] then some v else none
  | none => none

/-- Model of `json.loads` on a string. -/
def json_loads (t : String) : Option Json :=
  json_loadsL t.data

example : json_loads "[1, 2]" = some (Json.arr [Json.num 1, Json.num 2]) := rfl
example : json_loads "I earn 5" = none := rfl
example : json_loads " \x7b\"a\": -3\x7d " =
    some (Json.obj [("a", Json.num (-3))]) := rfl
example : json_loads "01" = none := rfl
example : json_loads "\x7b\"a\":1,\"a\":2\x7d" =
    some (Json.obj [("a", Json.num 2)]) := rfl
example : json_loads "true" = some (Json.bool true) := rfl
example : json_loads "\"error\"" = some (Json.str "error") := rfl

/-- Index of the last occurrence of `c` in `cs`. -/
def lastClose (c : Char) : List Char → Option Nat
  | [] => none
  | x :: xs =>
    match lastClose c xs with
    | some j => some (j + 1)
    | none => if x = c then some 0 else none

/-- Model of `re.search(r"(\{.*\}|\[.*\])", text, re.DOTALL)`, returning the
matched substring: the match starts at the first `{` with a later `}` (or `[`
with a later `]`), and the greedy `.*` extends it to the last such closer. -/
def reFind : List Char → Option (List Char)
  | [] => none
  | c :: rest =>
    if c = '{' then
      match lastClose '}' rest with
      | some j => some ('{' :: rest.take (j + 1))
      | none => reFind rest
    else if c = '[' then
      match lastClose ']' rest with
      | some j => some ('[' :: rest.take (j + 1))
      | none => reFind rest
    else reFind rest

/-- The dictionary `extract_json` returns when both parse attempts fail:
`{"error": "Invalid JSON format from AI.", "raw_response": text}`. -/
def errorJson (text : String) : Json :=
  Json.obj [("error", Json.str "Invalid JSON format from AI."),
            ("raw_response", Json.str text)]

/-- `extract_json` from `langchain_pipeline.py`: parse the whole text, else
parse the regex match, else return the error dictionary. -/
def extract_json (text : String) : Json :=
  match json_loadsL text.data with
  | some v => v
  | none =>
    match reFind text.data with
    | some m =>
      match json_loadsL m with
      | some v => v
      | none => errorJson text
    | none => errorJson text

/-- The successful-recovery part of `extract_json`: `some v` when either
parse attempt yields `v`, `none` when `extract_json` falls through to the
error dictionary. -/
def recoverOk? (text : String) : Option Json :=
  match json_loadsL text.data with
  | some v => some v
  | none =>
    match reFind text.data with
    | some m => json_loadsL m
    | none => none

/-- The spec's `Failed` tag: recovery failed and `extract_json` returned the
error dictionary. -/
def recoveryFailed (text : String) : Bool :=
  (recoverOk? text).isNone

theorem extract_json_eq_recover (text : String) :
    extract_json text = (recoverOk? text).getD (errorJson text) := by
  unfold extract_json recoverOk?
  cases h1 : json_loadsL text.data with
  | some v => rfl
  | none =>
    cases h2 : reFind text.data with
    | none => rfl
    | some m => cases h3 : json_loadsL m <;> simp [h3]

theorem extract_json_of_failed (text : String) (h : recoveryFailed text = true) :
    extract_json text = errorJson text := by
  rw [extract_json_eq_recover]
  unfold recoveryFailed at h
  cases hr : recoverOk? text with
  | none => rfl
  | some v => rw [hr] at h; simp [Option.isNone] at h

example : extract_json "I earn \x7b\"a\": 5\x7d!" =
    Json.obj [("a", Json.num 5)] := rfl
example : extract_json "gibberish" = errorJson "gibberish" := rfl
example : extract_json "\x7b\"a\":1\x7d tail\x7d" =
    errorJson "\x7b\"a\":1\x7d tail\x7d" := rfl
example : recoveryFailed "7" = false := rfl

/-- Python's numeric test `isinstance(x, (int, float))` on a JSON value,
returning its numeric value.  Python `bool` is a subclass of `int`, so
`true`/`false` count as `1`/`0`. -/
def asPyNum : Json → Option Int
  | Json.num n => some n
  | Json.bool b => some (if b then 1 else 0)
  | _ => none

/-- `leadMatches needle hay`: `hay` starts with `needle`. -/
def leadMatches : List Char → List Char → Bool
  | [], _ => true
  | _ :: _, [] => false
  | a :: as, b :: bs => a = b && leadMatches as bs

/-- `containsSeq needle hay`: `needle` occurs contiguously in `hay`
(Python's `needle in hay` on strings). -/
def containsSeq (needle : List Char) : List Char → Bool
  | [] => leadMatches needle []
  | c :: cs => leadMatches needle (c :: cs) || containsSeq needle cs

/-- The membership test `"error" in x` of line 133: key lookup on a dict,
element comparison on a list, substring test on a string, and a `TypeError`
on any other value. -/
def pyInError : Json → Except String Bool
  | Json.obj kvs => Except.ok (kvs.any (fun kv => kv.1 = "error"))
  | Json.arr xs =>
    Except.ok (xs.any (fun x =>
      match x with
      | Json.str s => s = "error"
      | _ => false))
  | Json.str s => Except.ok (containsSeq "error".data s.data)
  | _ => Except.error "TypeError"

/-- The income summation of line 139, `sum(item["amount"] for item in
income_data)`, over the elements of a list: a non-dict element raises
`TypeError` (`x["amount"]` on a non-dict), a dict without the key raises
`KeyError`, and a non-numeric amount raises `TypeError` (`int + str`).
No element is skipped. -/
def sumIncAux : List Json → Int → Except String Int
  | [], acc => Except.ok acc
  | x :: xs, acc =>
    match x with
    | Json.obj kvs =>
      (match lookupKV kvs "amount" with
       | some v =>
         (match asPyNum v with
          | some n => sumIncAux xs (acc + n)
          | none => Except.error "TypeError")
       | none => Except.error "KeyError")
    | _ => Except.error "TypeError"

/-- Line 139 applied to the recovered income value itself.  Iterating a dict
yields its keys (strings) and a string yields its characters, so both raise
`TypeError` at `item["amount"]` unless empty; numbers, booleans and `null`
are not iterable. -/
def sumIncomeAmounts : Json → Except String Int
  | Json.arr xs => sumIncAux xs 0
  | Json.obj kvs => if kvs.isEmpty then Except.ok 0 else Except.error "TypeError"
  | Json.str s => if s.data.isEmpty then Except.ok 0 else Except.error "TypeError"
  | _ => Except.error "TypeError"

/-- The filtered expense summation of line 114, `sum(item["amount"] for item
in expenses if isinstance(item.get("amount"), (int, float)))`: entries whose
`amount` is missing or non-numeric are skipped, but `item.get` on a non-dict
element raises `AttributeError`. -/
def sumExpAux : List Json → Int → Except String Int
  | [], acc => Except.ok acc
  | x :: xs, acc =>
    match x with
    | Json.obj kvs =>
      (match lookupKV kvs "amount" with
       | some v =>
         (match asPyNum v with
          | some n => sumExpAux xs (acc + n)
          | none => sumExpAux xs acc)
       | none => sumExpAux xs acc)
    | _ => Except.error "AttributeError"

/-- `calculate_savings` from `langchain_pipeline.py`: a non-numeric income
is replaced by `0`, expenses are summed over entries with a numeric
`amount`, and the recommendation is clamped at `0`. -/
def calculate_savings (income : Json) (expenses : List Json) : Except String Int :=
  let total_income := (asPyNum income).getD 0
  match sumExpAux expenses 0 with
  | Except.ok total_expenses => Except.ok (max 0 (total_income - total_expenses))
  | Except.error e => Except.error e

/-- The four completion branches of `budget_parallel_chain`, abstracted as
functions from the user input to each branch's raw completion text. -/
structure CompletionClient where
  income : String → String
  expenses : String → String
  concerns : String → String
  advice : String → String

/-- The dictionary `run_budget_pipeline` returns on success. -/
structure BudgetResult where
  income : Int
  expenses : List Json
  savings : Int
  concerns : String
  advice : String

/-- Observable outcome of one `run_budget_pipeline` call: the success
dictionary, an `{"error": msg}` dictionary, or an uncaught Python
exception. -/
inductive PipelineOutput where
  | result : BudgetResult → PipelineOutput
  | error : String → PipelineOutput
  | exn : String → PipelineOutput

/-- `true` exactly on the success constructor. -/
def PipelineOutput.isResult : PipelineOutput → Bool
  | PipelineOutput.result _ => true
  | _ => false

/-- `run_budget_pipeline` from `langchain_pipeline.py`: reject blank input,
recover the income and expenses branches with `extract_json`, bail out when
either contains `"error"` (short-circuit `or`, left to right), sum the income
amounts, coerce a non-list expenses value to `[]`, and call
`calculate_savings`. -/
def run_budget_pipeline (client : CompletionClient) (user_input : String) :
    PipelineOutput :=
  if user_input.data.all Char.isWhitespace then
    PipelineOutput.error "Please provide financial details."
  else
    let income_data := extract_json (client.income user_input)
    let expenses_data := extract_json (client.expenses user_input)
    match pyInError income_data with
    | Except.error e => PipelineOutput.exn e
    | Except.ok true => PipelineOutput.error "AI returned invalid financial data."
    | Except.ok false =>
      match pyInError expenses_data with
      | Except.error e => PipelineOutput.exn e
      | Except.ok true => PipelineOutput.error "AI returned invalid financial data."
      | Except.ok false =>
        match sumIncomeAmounts income_data with
        | Except.error e => PipelineOutput.exn e
        | Except.ok total_income =>
          let total_expenses :=
            match expenses_data with
            | Json.arr xs => xs
            | _ => []
          match calculate_savings (Json.num total_income) total_expenses with
          | Except.error e => PipelineOutput.exn e
          | Except.ok savings =>
            PipelineOutput.result
              ⟨total_income, total_expenses, savings,
               client.concerns user_input, client.advice user_input⟩

/-! ## Specification-side definitions -/

/-- The numeric `amount` carried by an entry, when it is an object whose
`amount` value is numeric. -/
def amountOf (x : Json) : Option Json :=
  match x with
  | Json.obj kvs => lookupKV kvs "amount"
  | _ => none

/-- Sum of the numeric `amount` fields of a list of entries; entries without
a numeric `amount` contribute `0`. -/
def amountSum : List Json → Int
  | [] => 0
  | x :: xs => (((amountOf x).bind asPyNum).getD 0) + amountSum xs

/-- Every element is a JSON object. -/
def allObjs : List Json → Bool
  | [] => true
  | x :: xs =>
    (match x with
     | Json.obj _ => true
     | _ => false) && allObjs xs

/-- Every element is a JSON object carrying a numeric `amount` — the shape
for which the unfiltered income summation of line 139 succeeds. -/
def allGoodIncome : List Json → Bool
  | [] => true
  | x :: xs =>
    (match x with
     | Json.obj kvs =>
       (match lookupKV kvs "amount" with
        | some v => (asPyNum v).isSome
        | none => false)
     | _ => false) && allGoodIncome xs

/-- Values on which Python's `"error" in x` is defined: dicts, lists and
strings. -/
def containerLike : Json → Bool
  | Json.obj _ => true
  | Json.arr _ => true
  | Json.str _ => true
  | _ => false

/-- The recovered value carries the failure marker of claim C10: an object
with an `"error"` key, or a list with `"error"` as an element. -/
def containsErrorMarker : Json → Bool
  | Json.obj kvs => kvs.any (fun kv => kv.1 = "error")
  | Json.arr xs =>
    xs.any (fun x =>
      match x with
      | Json.str s => s = "error"
      | _ => false)
  | _ => false

/-- All contiguous substrings of a character list (one per start/length
pair). -/
def substrsL (cs : List Char) : List (List Char) :=
  (cs.tails.map List.inits).flatten

/-- Number of (positioned) substrings that parse as a JSON object — the
formal reading of "contains exactly one JSON object". -/
def objSubstrCount (cs : List Char) : Nat :=
  ((substrsL cs).filter (fun s =>
    match json_loadsL s with
    | some (Json.obj _) => true
    | _ => false)).length

/-- No substring of `t` is valid JSON. -/
def noJsonSubstr (t : String) : Bool :=
  (substrsL t.data).all (fun s => (json_loadsL s).isNone)

/-! ## Concrete scenario data -/

/-- Scenario B income completion: a JSON object embedded in prose. -/
def scenBIncomeText : String := "I earn \x7b\"source\":\"job\",\"amount\":5000\x7d"

/-- Scenario B expenses completion: a pure JSON list. -/
def scenBExpensesText : String :=
  "[\x7b\"category\":\"rent\",\"amount\":1500\x7d,\x7b\"category\":\"food\",\"amount\":300\x7d]"

/-- Income completion with the object wrapped in a JSON *list*, the shape the
income prompt requests. -/
def scenBIncomeListText : String :=
  "I earn [\x7b\"source\":\"job\",\"amount\":5000\x7d]"

/-- The recovered rent entry. -/
def rentEntry : Json :=
  Json.obj [("category", Json.str "rent"), ("amount", Json.num 1500)]

/-- The recovered food entry. -/
def foodEntry : Json :=
  Json.obj [("category", Json.str "food"), ("amount", Json.num 300)]

/-- A client whose income and expenses branches return the Scenario B
texts. -/
def scenBClient : CompletionClient :=
  ⟨fun _ => scenBIncomeText, fun _ => scenBExpensesText,
   fun _ => "watch your spending", fun _ => "save more"⟩

/-- Scenario B with the income JSON in list form. -/
def scenBListClient : CompletionClient :=
  ⟨fun _ => scenBIncomeListText, fun _ => scenBExpensesText,
   fun _ => "watch your spending", fun _ => "save more"⟩

example :
    extract_json scenBIncomeText =
      Json.obj [("source", Json.str "job"), ("amount", Json.num 5000)] := rfl
example : extract_json scenBExpensesText = Json.arr [rentEntry, foodEntry] := rfl
example :
    run_budget_pipeline scenBClient "I earn money" =
      PipelineOutput.exn "TypeError" := rfl
example :
    run_budget_pipeline scenBListClient "I earn money" =
      PipelineOutput.result
        ⟨5000, [rentEntry, foodEntry], 3200, "watch your spending", "save more"⟩ := rfl

/-! ## Helper lemmas -/

theorem sumExpAux_ok (xs : List Json) (acc : Int) (h : allObjs xs = true) :
    sumExpAux xs acc = Except.ok (acc + amountSum xs) := by
  induction xs generalizing acc with
  | nil => simp [sumExpAux, amountSum]
  | cons x xs ih =>
    unfold allObjs at h
    rw [Bool.and_eq_true] at h
    cases x with
    | obj kvs =>
      simp only [sumExpAux, amountSum, amountOf]
      cases hl : lookupKV kvs "amount" with
      | none =>
        simp [hl, ih acc h.2]
      | some v =>
        cases hn : asPyNum v with
        | none => simp [hl, hn, ih acc h.2]
        | some n =>
          simp [hl, hn, ih (acc + n) h.2]
          all_goals omega
    | null => simp at h
    | bool b => simp at h
    | num n => simp at h
    | str s => simp at h
    | arr ys => simp at h

theorem sumExpAux_ok_inv (xs : List Json) (acc te : Int)
    (h : sumExpAux xs acc = Except.ok te) : te = acc + amountSum xs := by
  induction xs generalizing acc with
  | nil =>
    simp [sumExpAux] at h
    simp [amountSum]
    omega
  | cons x xs ih =>
    cases x with
    | obj kvs =>
      simp only [sumExpAux] at h
      simp only [amountSum, amountOf]
      cases hl : lookupKV kvs "amount" with
      | none =>
        simp only [hl] at h
        have := ih acc h
        simp
        omega
      | some v =>
        simp only [hl] at h
        cases hn : asPyNum v with
        | none =>
          simp only [hn] at h
          have := ih acc h
          simp [hn]
          omega
        | some n =>
          simp only [hn] at h
          have := ih (acc + n) h
          simp [hn]
          omega
    | null => simp [sumExpAux] at h
    | bool b => simp [sumExpAux] at h
    | num n => simp [sumExpAux] at h
    | str s => simp [sumExpAux] at h
    | arr ys => simp [sumExpAux] at h

theorem calculate_savings_ok (ti : Int) (xs : List Json) (h : allObjs xs = true) :
    calculate_savings (Json.num ti) xs = Except.ok (max 0 (ti - amountSum xs)) := by
  simp only [calculate_savings]
  rw [sumExpAux_ok xs 0 h]
  simp [asPyNum]

theorem calculate_savings_ok_inv (j : Json) (xs : List Json) (s : Int)
    (h : calculate_savings j xs = Except.ok s) :
    s = max 0 ((asPyNum j).getD 0 - amountSum xs) := by
  simp only [calculate_savings] at h
  cases he : sumExpAux xs 0 with
  | error e => rw [he] at h; simp at h
  | ok te =>
    rw [he] at h
    simp at h
    have hte := sumExpAux_ok_inv xs 0 te he
    omega

theorem allGoodIncome_allObjs (xs : List Json) (h : allGoodIncome xs = true) :
    allObjs xs = true := by
  induction xs with
  | nil => rfl
  | cons x xs ih =>
    unfold allGoodIncome at h
    rw [Bool.and_eq_true] at h
    unfold allObjs
    rw [Bool.and_eq_true]
    refine ⟨?_, ih h.2⟩
    cases x <;> simp_all

theorem sumIncAux_ok (xs : List Json) (acc : Int) (h : allGoodIncome xs = true) :
    sumIncAux xs acc = Except.ok (acc + amountSum xs) := by
  induction xs generalizing acc with
  | nil => simp [sumIncAux, amountSum]
  | cons x xs ih =>
    cases x with
    | obj kvs =>
      simp only [allGoodIncome, Bool.and_eq_true] at h
      simp only [sumIncAux, amountSum, amountOf]
      cases hl : lookupKV kvs "amount" with
      | none => simp only [hl] at h; exact absurd h.1 (by simp)
      | some v =>
        simp only [hl] at h
        cases hn : asPyNum v with
        | none => simp [hn, Option.isSome] at h
        | some n =>
          simp [hl, hn, ih (acc + n) h.2]
          all_goals omega
    | null => simp [allGoodIncome] at h
    | bool b => simp [allGoodIncome] at h
    | num n => simp [allGoodIncome] at h
    | str s => simp [allGoodIncome] at h
    | arr ys => simp [allGoodIncome] at h

theorem sumIncAux_err (xs : List Json) (acc : Int) (h : allGoodIncome xs = false) :
    ∃ e, sumIncAux xs acc = Except.error e := by
  induction xs generalizing acc with
  | nil => simp [allGoodIncome] at h
  | cons x xs ih =>
    cases x with
    | obj kvs =>
      simp only [allGoodIncome, Bool.and_eq_false_iff] at h
      simp only [sumIncAux]
      cases hl : lookupKV kvs "amount" with
      | none => exact ⟨"KeyError", by simp [hl]⟩
      | some v =>
        cases hn : asPyNum v with
        | none => exact ⟨"TypeError", by simp [hl, hn]⟩
        | some n =>
          simp only [hl, hn]
          apply ih
          rcases h with h | h
          · simp only [hl, hn] at h
            simp [Option.isSome] at h
          · exact h
    | null => exact ⟨"TypeError", rfl⟩
    | bool b => exact ⟨"TypeError", rfl⟩
    | num n => exact ⟨"TypeError", rfl⟩
    | str s => exact ⟨"TypeError", rfl⟩
    | arr ys => exact ⟨"TypeError", rfl⟩

theorem pyInError_arr_objs (xs : List Json) (h : allObjs xs = true) :
    pyInError (Json.arr xs) = Except.ok false := by
  induction xs with
  | nil => rfl
  | cons x xs ih =>
    unfold allObjs at h
    rw [Bool.and_eq_true] at h
    have hx := ih h.2
    simp only [pyInError, List.any_cons, Except.ok.injEq, Bool.or_eq_false_iff] at hx ⊢
    refine ⟨?_, hx⟩
    cases x <;> simp_all

theorem pyInError_errorJson (t : String) :
    pyInError (errorJson t) = Except.ok true := by
  simp [pyInError, errorJson]

theorem pyInError_container (j : Json) (h : containerLike j = true) :
    ∃ b, pyInError j = Except.ok b := by
  cases j <;> simp [containerLike] at h <;> exact ⟨_, rfl⟩

theorem pyInError_marker (j : Json) (h : containsErrorMarker j = true) :
    pyInError j = Except.ok true := by
  cases j <;> simp [containsErrorMarker] at h <;> simp [pyInError, h]

theorem lastClose_eq_none (c : Char) (ys : List Char) (h : c ∉ ys) :
    lastClose c ys = none := by
  induction ys with
  | nil => rfl
  | cons y ys ih =>
    simp only [List.mem_cons, not_or] at h
    simp only [lastClose, ih h.2]
    exact if_neg fun hyc => h.1 hyc.symm

theorem lastClose_append2 (c : Char) (xs ys : List Char) (hys : c ∉ ys) :
    lastClose c (xs ++ c :: ys) = some xs.length := by
  induction xs with
  | nil => simp [lastClose, lastClose_eq_none _ ys hys]
  | cons x xs ih =>
    show (match lastClose c (xs ++ c :: ys) with
          | some j => some (j + 1)
          | none => if x = c then some 0 else none) = some (x :: xs).length
    rw [ih]
    simp

theorem getLastDecomp (l : List Char) (c : Char) (h : l.getLast? = some c) :
    ∃ f, l = f ++ [c] := by
  induction l with
  | nil => simp at h
  | cons x xs ih =>
    cases xs with
    | nil =>
      simp at h
      exact ⟨[], by simp [h]⟩
    | cons y ys =>
      rw [List.getLast?_cons_cons] at h
      obtain ⟨f, hf⟩ := ih h
      exact ⟨x :: f, by rw [List.cons_append, ← hf]⟩

theorem reFind_append_aux (pre rest : List Char)
    (h : ∀ a ∈ pre, a ≠ '{' ∧ a ≠ '[') :
    reFind (pre ++ rest) = reFind rest := by
  induction pre with
  | nil => rfl
  | cons a pre ih =>
    have ha := h a (List.mem_cons_self a pre)
    simp only [List.cons_append, reFind, if_neg ha.1, if_neg ha.2]
    exact ih fun b hb => h b (List.mem_cons_of_mem a hb)

theorem reFind_span (midtail post : List Char) (hpost : ('}' : Char) ∉ post)
    (hlast : midtail.getLast? = some '}') :
    reFind ('{' :: (midtail ++ post)) = some ('{' :: midtail) := by
  obtain ⟨front, hf⟩ := getLastDecomp midtail '}' hlast
  subst hf
  have h2 : front ++ ['}'] ++ post = front ++ '}' :: post := by simp
  simp [reFind, h2, lastClose_append2 '}' front post hpost]
  rw [show front ++ '}' :: post = (front ++ ['}']) ++ post by simp,
      show front.length + 1 = (front ++ ['}']).length by simp, List.take_left]

theorem mem_substrsL_of_within (l cs : List Char) (h : l <:+: cs) :
    l ∈ substrsL cs := by
  obtain ⟨t, hpt, hts⟩ := List.infix_iff_prefix_suffix.mp h
  unfold substrsL
  rw [List.mem_flatten]
  exact ⟨List.inits t, List.mem_map_of_mem List.inits ((List.mem_tails t cs).mpr hts),
         (List.mem_inits l t).mpr hpt⟩

theorem reFind_within (cs m : List Char) (h : reFind cs = some m) : m <:+: cs := by
  induction cs with
  | nil => simp [reFind] at h
  | cons c rest ih =>
    simp only [reFind] at h
    by_cases hc : c = '{'
    · rw [if_pos hc] at h
      subst hc
      cases hl : lastClose '}' rest with
      | some j =>
        rw [hl] at h
        simp only [Option.some.injEq] at h
        subst h
        exact ⟨[], rest.drop (j + 1), by simp⟩
      | none =>
        rw [hl] at h
        exact List.infix_cons (ih h)
    · rw [if_neg hc] at h
      by_cases hb : c = '['
      · rw [if_pos hb] at h
        subst hb
        cases hl : lastClose ']' rest with
        | some j =>
          rw [hl] at h
          simp only [Option.some.injEq] at h
          subst h
          exact ⟨[], rest.drop (j + 1), by simp⟩
        | none =>
          rw [hl] at h
          exact List.infix_cons (ih h)
      · rw [if_neg hb] at h
        exact List.infix_cons (ih h)

/-! ## Claim theorems -/

/-- Claim C7 (confirmed): `extract_json` is total by construction (its type
is `String → Json`; every Python `JSONDecodeError` is caught), and for every
text `t` none of whose substrings is valid JSON it returns the error
dictionary carrying the original text under `raw_response` —
the spec's `Failed(t)`. -/
theorem C7_no_json_substring_failed (t : String) (h : noJsonSubstr t = true) :
    extract_json t = errorJson t := by
  have hall := List.all_eq_true.mp h
  have hwhole : json_loadsL t.data = none := by
    have hm := hall t.data (mem_substrsL_of_within _ _ (List.infix_refl _))
    simpa using hm
  unfold extract_json
  rw [hwhole]
  cases hf : reFind t.data with
  | none => rfl
  | some m =>
    have hm2 := hall m (mem_substrsL_of_within _ _ (reFind_within _ _ hf))
    have hm3 : json_loadsL m = none := by simpa using hm2
    show (match json_loadsL m with
          | some v => v
          | none => errorJson t) = errorJson t
    rw [hm3]

/-- Witness for C7 at the concrete no-JSON text `"nope!"`. -/
theorem C7_witness :
    noJsonSubstr "nope!" = true ∧ extract_json "nope!" = errorJson "nope!" :=
  ⟨rfl, C7_no_json_substring_failed "nope!" rfl⟩

/-- Claim C8 (confirmed): on a string that is well-formed JSON in its
entirety, `extract_json` returns exactly the parsed value (the first
`json.loads` attempt succeeds, scalars included). -/
theorem C8_whole_text_json (t : String) (v : Json) (h : json_loads t = some v) :
    extract_json t = v := by
  unfold json_loads at h
  unfold extract_json
  rw [h]

/-- Witness for C8 at the concrete well-formed input `"[1,2]"`. -/
theorem C8_witness :
    json_loads "[1,2]" = some (Json.arr [Json.num 1, Json.num 2]) ∧
    extract_json "[1,2]" = Json.arr [Json.num 1, Json.num 2] :=
  ⟨rfl, C8_whole_text_json "[1,2]" (Json.arr [Json.num 1, Json.num 2]) rfl⟩

/-- Claim C9 (confirmed): on empty or whitespace-only input the pipeline
returns the `EmptyInput` error dictionary, and the outcome is identical for
every completion client (no branch function is ever consulted). -/
theorem C9_empty_input (c c' : CompletionClient) (u : String)
    (h : u.data.all Char.isWhitespace = true) :
    run_budget_pipeline c u =
      PipelineOutput.error "Please provide financial details." ∧
    run_budget_pipeline c u = run_budget_pipeline c' u := by
  constructor <;> simp [run_budget_pipeline, h]

/-- Witness for C9 at the concrete input `""` (Scenario A) with two
different clients. -/
theorem C9_witness :
    run_budget_pipeline scenBClient "" =
      PipelineOutput.error "Please provide financial details." ∧
    run_budget_pipeline scenBClient "" = run_budget_pipeline scenBListClient "" :=
  C9_empty_input scenBClient scenBListClient "" rfl

/-- Claim C2 (confirmed): every `BudgetResult` the pipeline produces
satisfies `savings = max 0 (income - sum of the numeric expense amounts)`;
in particular savings is never negative, and is `0` whenever the expenses
exceed the income. -/
theorem C2_savings_invariant (c : CompletionClient) (u : String)
    (r : BudgetResult) (h : run_budget_pipeline c u = PipelineOutput.result r) :
    r.savings = max 0 (r.income - amountSum r.expenses) ∧
    0 ≤ r.savings ∧
    (r.income < amountSum r.expenses → r.savings = 0) := by
  simp only [run_budget_pipeline] at h
  by_cases hw : u.data.all Char.isWhitespace = true
  · rw [if_pos hw] at h
    simp at h
  · rw [if_neg hw] at h
    cases hpi : pyInError (extract_json (c.income u)) with
    | error e => simp only [hpi] at h; simp at h
    | ok b =>
      simp only [hpi] at h
      cases b with
      | true => simp at h
      | false =>
        cases hpe : pyInError (extract_json (c.expenses u)) with
        | error e => simp only [hpe] at h; simp at h
        | ok b2 =>
          simp only [hpe] at h
          cases b2 with
          | true => simp at h
          | false =>
            cases hsum : sumIncomeAmounts (extract_json (c.income u)) with
            | error e => simp only [hsum] at h; simp at h
            | ok ti =>
              simp only [hsum] at h
              set texp := (match extract_json (c.expenses u) with
                           | Json.arr xs => xs
                           | _ => []) with htexp
              cases hcalc : calculate_savings (Json.num ti) texp with
              | error e => simp only [hcalc] at h; simp at h
              | ok s =>
                simp only [hcalc] at h
                injection h with h1
                subst h1
                have hs := calculate_savings_ok_inv _ _ _ hcalc
                simp only [asPyNum, Option.getD] at hs
                dsimp only
                exact ⟨hs, by omega, fun hlt => by omega⟩

/-- Scenario E client: income 1000, expenses 1500. -/
def scenEClient : CompletionClient :=
  ⟨fun _ => "[\x7b\"source\":\"job\",\"amount\":1000\x7d]",
   fun _ => "[\x7b\"category\":\"rent\",\"amount\":1500\x7d]",
   fun _ => "cut costs", fun _ => "spend less"⟩

/-- The result Scenario E produces: expenses exceed income, savings 0. -/
def scenEResult : BudgetResult :=
  ⟨1000, [rentEntry], 0, "cut costs", "spend less"⟩

/-- Witness for C2 at the concrete Scenario E run (income 1000, expenses
1500, savings 0 — not negative). -/
theorem C2_witness :
    run_budget_pipeline scenEClient "I earn 1000 and pay 1500 rent" =
      PipelineOutput.result scenEResult ∧
    (scenEResult.savings = max 0 (scenEResult.income - amountSum scenEResult.expenses) ∧
     0 ≤ scenEResult.savings ∧
     (scenEResult.income < amountSum scenEResult.expenses → scenEResult.savings = 0)) :=
  ⟨rfl, C2_savings_invariant scenEClient "I earn 1000 and pay 1500 rent" scenEResult rfl⟩

/-- Counterexample to claim C1 as stated: with the Scenario B completions
(the income JSON is a bare object embedded in prose), line 139 iterates the
recovered dict's keys and evaluates `"source"["amount"]`, so the pipeline
raises `TypeError` instead of returning the claimed `BudgetResult`. -/
theorem C1_counterexample :
    run_budget_pipeline scenBClient "I earn 5000, rent 1500, food 300" =
      PipelineOutput.exn "TypeError" ∧
    (run_budget_pipeline scenBClient "I earn 5000, rent 1500, food 300").isResult
      = false :=
  ⟨rfl, rfl⟩

/-- Claim C1 (corrected): with the income object wrapped in a JSON list,
`I earn [{"source":"job","amount":5000}]` — the shape the income prompt
requests — and the Scenario B expenses completion, every client yields
`BudgetResult{totalIncome 5000, expenses [rent:1500, food:300] in order,
recommendedSavings 3200}`. -/
theorem C1_amended (c : CompletionClient) (u : String)
    (hu : u.data.all Char.isWhitespace = false)
    (hinc : c.income u = scenBIncomeListText)
    (hexp : c.expenses u = scenBExpensesText) :
    run_budget_pipeline c u =
      PipelineOutput.result
        ⟨5000, [rentEntry, foodEntry], 3200, c.concerns u, c.advice u⟩ := by
  simp only [run_budget_pipeline, hu, Bool.false_eq_true, if_false, hinc, hexp]
  rfl

/-- Witness for C1's amended claim at a concrete client and input. -/
theorem C1_witness :
    run_budget_pipeline scenBListClient "I earn 5000, rent 1500, food 300" =
      PipelineOutput.result
        ⟨5000, [rentEntry, foodEntry], 3200, "watch your spending", "save more"⟩ :=
  C1_amended scenBListClient "I earn 5000, rent 1500, food 300" rfl rfl rfl

/-- Client whose income branch has a non-numeric amount. -/
def c3Client : CompletionClient :=
  ⟨fun _ => "[\x7b\"source\":\"job\",\"amount\":\"n/a\"\x7d]",
   fun _ => "[]", fun _ => "c3 concerns", fun _ => "c3 advice"⟩

/-- Counterexample to claim C3 as stated: an income entry whose amount is
the string "n/a" is not skipped — line 139 sums every entry unfiltered, so
`0 + "n/a"` raises `TypeError` and the aggregation fails instead of
producing a result. -/
theorem C3_counterexample :
    run_budget_pipeline c3Client "budget please" = PipelineOutput.exn "TypeError" ∧
    (run_budget_pipeline c3Client "budget please").isResult = false :=
  ⟨rfl, rfl⟩

/-- Claim C3 (amended): totalIncome is the unfiltered sum over all income
entries: it equals their amount-sum exactly when every entry is an object
with a numeric `amount`, and otherwise the summation raises (`KeyError` for
a missing amount, `TypeError` for a non-numeric one) — entries are never
skipped. -/
theorem C3_amended (xs : List Json) :
    (allGoodIncome xs = true →
      sumIncomeAmounts (Json.arr xs) = Except.ok (amountSum xs)) ∧
    (allGoodIncome xs = false →
      ∃ e, sumIncomeAmounts (Json.arr xs) = Except.error e) := by
  constructor
  · intro h
    simp only [sumIncomeAmounts]
    rw [sumIncAux_ok xs 0 h]
    simp
  · intro h
    simp only [sumIncomeAmounts]
    exact sumIncAux_err xs 0 h

/-- Witness for C3's amended claim: an all-numeric income list sums to 5000,
and a list with an "n/a" amount makes the summation error. -/
theorem C3_witness :
    sumIncomeAmounts
        (Json.arr [Json.obj [("source", Json.str "job"), ("amount", Json.num 5000)]]) =
      Except.ok 5000 ∧
    ∃ e, sumIncomeAmounts (Json.arr [Json.obj [("amount", Json.str "n/a")]]) =
      Except.error e :=
  ⟨(C3_amended [Json.obj [("source", Json.str "job"), ("amount", Json.num 5000)]]).1 rfl,
   (C3_amended [Json.obj [("amount", Json.str "n/a")]]).2 rfl⟩

/-- Client with a numeric income completion and an unrecoverable expenses
completion. -/
def c4Client : CompletionClient :=
  ⟨fun _ => "7", fun _ => "total garbage", fun _ => "c4 concerns", fun _ => "c4 advice"⟩

/-- Counterexample to claim C4 as stated: the expenses recovery is Failed
while the income branch recovered successfully (to the bare number 7), yet
the pipeline does not return the RecoveryFailed error — the membership test
`"error" in 7` raises `TypeError` first. -/
theorem C4_counterexample :
    recoveryFailed "total garbage" = true ∧
    recoveryFailed "7" = false ∧
    run_budget_pipeline c4Client "my budget" = PipelineOutput.exn "TypeError" ∧
    (run_budget_pipeline c4Client "my budget").isResult = false :=
  ⟨rfl, rfl, rfl, rfl⟩

/-- Claim C4 (amended): if the income recovery is Failed the pipeline
returns the RecoveryFailed error unconditionally; if the expenses recovery
is Failed it does so provided the recovered income value is an object,
array, or string — a bare number, boolean or `null` instead makes
`"error" in income_data` raise `TypeError` and the pipeline crash. -/
theorem C4_amended (c : CompletionClient) (u : String)
    (hu : u.data.all Char.isWhitespace = false) :
    (recoveryFailed (c.income u) = true →
      run_budget_pipeline c u =
        PipelineOutput.error "AI returned invalid financial data.") ∧
    (recoveryFailed (c.expenses u) = true →
      containerLike (extract_json (c.income u)) = true →
      run_budget_pipeline c u =
        PipelineOutput.error "AI returned invalid financial data.") := by
  constructor
  · intro hf
    have h1 := extract_json_of_failed _ hf
    simp [run_budget_pipeline, hu, h1, pyInError_errorJson]
  · intro hf hc
    have h2 := extract_json_of_failed _ hf
    obtain ⟨b, hb⟩ := pyInError_container _ hc
    cases b with
    | true => simp [run_budget_pipeline, hu, hb]
    | false => simp [run_budget_pipeline, hu, hb, h2, pyInError_errorJson]

/-- Client whose income branch is unrecoverable gibberish and whose expenses
branch parses. -/
def c4wClient : CompletionClient :=
  ⟨fun _ => "???", fun _ => "[]", fun _ => "w4 concerns", fun _ => "w4 advice"⟩

/-- Witness for C4's amended claim: income recovery Failed (expenses parsed
fine) gives the RecoveryFailed error. -/
theorem C4_witness :
    recoveryFailed "???" = true ∧
    run_budget_pipeline c4wClient "help me budget" =
      PipelineOutput.error "AI returned invalid financial data." :=
  ⟨rfl, (C4_amended c4wClient "help me budget" rfl).1 rfl⟩

/-- Claim C6 (confirmed): when both branches recover to lists — income with
numeric amounts throughout, expenses all objects — the pipeline succeeds;
expense entries whose `amount` is missing or non-numeric contribute `0` to
the sum behind `recommendedSavings` (they are dropped from the sum by the
`isinstance` filter of line 114) while every entry, dropped or not, still
appears in the returned `expenses`. -/
theorem C6_nonnumeric_expenses_dropped (c : CompletionClient) (u : String)
    (inc xs : List Json)
    (hu : u.data.all Char.isWhitespace = false)
    (hinc : extract_json (c.income u) = Json.arr inc)
    (hgood : allGoodIncome inc = true)
    (hexp : extract_json (c.expenses u) = Json.arr xs)
    (hobjs : allObjs xs = true) :
    run_budget_pipeline c u =
      PipelineOutput.result
        ⟨amountSum inc, xs, max 0 (amountSum inc - amountSum xs),
         c.concerns u, c.advice u⟩ := by
  have hio := allGoodIncome_allObjs inc hgood
  simp [run_budget_pipeline, hu, hinc, hexp,
        pyInError_arr_objs inc hio, pyInError_arr_objs xs hobjs,
        sumIncomeAmounts, sumIncAux_ok inc 0 hgood,
        calculate_savings_ok (amountSum inc) xs hobjs]

/-- Scenario D client: expenses contain an entry with `"amount": "n/a"`. -/
def scenDClient : CompletionClient :=
  ⟨fun _ => "[\x7b\"source\":\"job\",\"amount\":5000\x7d]",
   fun _ =>
     "[\x7b\"category\":\"rent\",\"amount\":1500\x7d,\x7b\"category\":\"misc\",\"amount\":\"n/a\"\x7d]",
   fun _ => "scenD concerns", fun _ => "scenD advice"⟩

/-- The recovered non-numeric expense entry of Scenario D. -/
def naMiscEntry : Json :=
  Json.obj [("category", Json.str "misc"), ("amount", Json.str "n/a")]

/-- Witness for C6 at the concrete Scenario D run: the "n/a" entry is
excluded from the sum (savings 3500 = 5000 - 1500) but kept in the result's
expenses. -/
theorem C6_witness :
    run_budget_pipeline scenDClient "I earn 5000" =
      PipelineOutput.result
        ⟨5000, [rentEntry, naMiscEntry], 3500, "scenD concerns", "scenD advice"⟩ :=
  C6_nonnumeric_expenses_dropped scenDClient "I earn 5000"
    [Json.obj [("source", Json.str "job"), ("amount", Json.num 5000)]]
    [rentEntry, naMiscEntry] rfl rfl rfl rfl rfl

/-- Client whose branches both recover, expenses to the list `["error"]`. -/
def c10Client : CompletionClient :=
  ⟨fun _ => "7", fun _ => "[\"error\"]", fun _ => "x concerns", fun _ => "x advice"⟩

/-- Counterexample to claim C10 as stated: both recoveries succeed and the
expenses value contains `"error"` as a list element, but the pipeline does
not return the recovery-failure error — income recovered to the bare number
7, so `"error" in 7` raises `TypeError` before the expenses test runs. -/
theorem C10_counterexample :
    recoveryFailed "7" = false ∧
    recoveryFailed "[\"error\"]" = false ∧
    extract_json "[\"error\"]" = Json.arr [Json.str "error"] ∧
    run_budget_pipeline c10Client "plan" = PipelineOutput.exn "TypeError" :=
  ⟨rfl, rfl, rfl, rfl⟩

/-- Claim C10 (amended): a successfully recovered income value carrying
`"error"` as an object key or list element makes the pipeline return the
recovery-failure error unconditionally — indistinguishable from a real
recovery failure; the same holds for the expenses value provided the income
value is an object, array, or string (a bare number, boolean or `null`
makes the membership test raise `TypeError` instead). -/
theorem C10_amended (c : CompletionClient) (u : String)
    (hu : u.data.all Char.isWhitespace = false) :
    (containsErrorMarker (extract_json (c.income u)) = true →
      run_budget_pipeline c u =
        PipelineOutput.error "AI returned invalid financial data.") ∧
    (containsErrorMarker (extract_json (c.expenses u)) = true →
      containerLike (extract_json (c.income u)) = true →
      run_budget_pipeline c u =
        PipelineOutput.error "AI returned invalid financial data.") := by
  constructor
  · intro hm
    have h1 := pyInError_marker _ hm
    simp [run_budget_pipeline, hu, h1]
  · intro hm hc
    have h2 := pyInError_marker _ hm
    obtain ⟨b, hb⟩ := pyInError_container _ hc
    cases b with
    | true => simp [run_budget_pipeline, hu, hb]
    | false => simp [run_budget_pipeline, hu, hb, h2]

/-- Client whose income branch returns a valid JSON object that happens to
carry an "error" key. -/
def c10wClient : CompletionClient :=
  ⟨fun _ => "\x7b\"error\": 1\x7d", fun _ => "[]",
   fun _ => "w10 concerns", fun _ => "w10 advice"⟩

/-- Witness for C10's amended claim: income recovers successfully to the
object `{"error": 1}`, yet the pipeline reports the recovery failure. -/
theorem C10_witness :
    recoveryFailed "\x7b\"error\": 1\x7d" = false ∧
    run_budget_pipeline c10wClient "goal" =
      PipelineOutput.error "AI returned invalid financial data." :=
  ⟨rfl, (C10_amended c10wClient "goal" rfl).1 rfl⟩

/-- The text `ok:{"a":1}x}`: exactly one JSON-object substring, embedded in
prose whose tail carries a stray `}`. -/
def c5Text : String := "ok:\x7b\"a\":1\x7dx\x7d"

/-- Counterexample to claim C5 as stated: `c5Text` contains exactly one JSON
object embedded in prose, yet recovery fails.  The regex does not locate the
longest *balanced* span: it spans from the first `{` to the last `}` of the
whole text (`{"a":1}x}` here), and that span does not parse. -/
theorem C5_counterexample :
    objSubstrCount c5Text.data = 1 ∧
    json_loads c5Text = none ∧
    reFind c5Text.data = some "\x7b\"a\":1\x7dx\x7d".data ∧
    extract_json c5Text = errorJson c5Text :=
  ⟨rfl, rfl, rfl, rfl⟩

/-- Claim C5 (amended): recovery of an embedded JSON object succeeds when
the span from the first `{`/`[` of the text to the last `}` is the object
itself — in particular when the prose before it contains no `{` or `[` and
the prose after it no `}`.  The regex takes the first-opener-to-last-closer
span, not the longest balanced one. -/
theorem C5_amended (pre mid post : List Char) (v : Json)
    (hpre : ∀ a ∈ pre, a ≠ '{' ∧ a ≠ '[')
    (hhead : mid.head? = some '{')
    (hlast : mid.getLast? = some '}')
    (hpost : ('}' : Char) ∉ post)
    (hmid : json_loadsL mid = some v)
    (hfull : json_loadsL (pre ++ mid ++ post) = none) :
    extract_json (String.mk (pre ++ mid ++ post)) = v := by
  obtain ⟨midtail, rfl⟩ : ∃ midtail, mid = '{' :: midtail := by
    cases mid with
    | nil => simp at hhead
    | cons a as =>
      simp at hhead
      exact ⟨as, by rw [hhead]⟩
  have hlastTail : midtail.getLast? = some '}' := by
    cases midtail with
    | nil => exact absurd hlast (by decide)
    | cons b bs =>
      rw [List.getLast?_cons_cons] at hlast
      exact hlast
  have href : reFind (pre ++ ('{' :: midtail) ++ post) = some ('{' :: midtail) := by
    rw [List.append_assoc, reFind_append_aux pre _ hpre, List.cons_append]
    exact reFind_span midtail post hpost hlastTail
  have hdata : (String.mk (pre ++ ('{' :: midtail) ++ post)).data
      = pre ++ ('{' :: midtail) ++ post := rfl
  simp only [extract_json, hdata, hfull, href, hmid]

/-- Witness for C5's amended claim at a concrete prose-wrapped object. -/
theorem C5_witness :
    extract_json (String.mk ("Sure: ".data ++ "\x7b\"a\":1\x7d".data ++ " thanks.".data)) =
      Json.obj [("a", Json.num 1)] :=
  C5_amended "Sure: ".data "\x7b\"a\":1\x7d".data " thanks.".data
    (Json.obj [("a", Json.num 1)])
    (by decide) rfl rfl (by decide) rfl rfl
